import Mathlib

/-!
Shallow embedding of the drmbackend bootstrap / fault-isolation layer
(src/app/main.py and src/app/api/v1/__init__.py) and proofs about it.

Conventions of the embedding:
* Python exceptions escaping a route handler are modelled by `Exc`;
  `Exc.otherError` carries the exception class name and its message, standing
  for every exception type other than `RuntimeError` and the framework's
  request-validation error.
* A JSON response is a status code plus its body, modelled as an association
  list of fields, so that "no other fields" is expressible.
* `await call_next(request)` either produces a response or raises, modelled by
  `Except Exc Response`.
* `traceback.format_exc()` at an except site is an extra string argument `tb`.
* Logging is modelled by returning the list of log lines the call emits.
-/

namespace DrmBackend

/-- Substring test on character lists: does the first list occur at the head of
the second? Mirrors the prefix step of Python's `in` operator on strings. -/
def leadsWith : List Char → List Char → Bool
  | [], _ => true
  | _ :: _, [] => false
  | a :: as, b :: bs => a == b && leadsWith as bs

/-- Contiguous-substring test on character lists; `containsSub n h` is Python's
`n in h` on the underlying characters. -/
def containsSub (needle : List Char) : List Char → Bool
  | [] => leadsWith needle []
  | b :: rest => leadsWith needle (b :: rest) || containsSub needle rest

/-- Python's `needle in hay` on strings (contiguous substring containment). -/
def containsSubstr (needle hay : String) : Bool :=
  containsSub needle.data hay.data

/-- Exceptions that can escape a route handler into the middleware stack.
`runtimeError` is Python's `RuntimeError`; `validationError` is FastAPI's
`RequestValidationError` (imported at src/app/main.py line 4); `otherError`
carries the class name and message of any other `Exception` subclass. -/
inductive Exc where
  | runtimeError (msg : String)
  | validationError (msg : String)
  | otherError (excType msg : String)
deriving DecidableEq, Repr

/-- Message of an exception, Python's `str(e)`. -/
def excMsg : Exc → String
  | Exc.runtimeError m => m
  | Exc.validationError m => m
  | Exc.otherError _ m => m

/-- An HTTP response: status code and JSON-object body as a field list. -/
structure Response where
  status : Nat
  body : List (String × String)
deriving DecidableEq, Repr

/-- Embedding of the `db_exception_handler` middleware, src/app/main.py
lines 31–49.  `tb` is the value of `traceback.format_exc()` at the except
site; `callNext` is the outcome of `await call_next(request)`.  The result is
either the response sent onward or the exception the middleware re-raises
(the bare `raise` on line 43), together with the log lines emitted.  Note the
Python semantics of a `raise` inside `except RuntimeError`: the sibling
`except Exception` clause of the same `try` does not catch it. -/
def db_exception_handler (tb : String) (callNext : Except Exc Response) :
    Except Exc Response × List String :=
  match callNext with
  | Except.ok response => (Except.ok response, [])
  | Except.error e =>
    match e with
    | Exc.runtimeError msg =>
      if containsSubstr "MongoDB" msg then
        (Except.ok { status := 503,
                     body := [("detail", "Service unavailable - database error")] },
         ["Database error: " ++ msg])
      else
        (Except.error e, [])
    | _ =>
      (Except.ok { status := 500, body := [("detail", "Internal server error")] },
       ["Unhandled exception: " ++ excMsg e ++ "\n" ++ tb])

/-- FailureClassification of spec §3, computed from the code's dispatch in
`db_exception_handler`: a `RuntimeError` whose message contains "MongoDB" is a
resource failure (ServiceUnavailable); any non-`RuntimeError` exception is an
unclassified failure (InternalError); a `RuntimeError` without "MongoDB" is
re-raised (PassThrough). -/
inductive Classification where
  | serviceUnavailable
  | internalError
  | passThrough
deriving DecidableEq, Repr

/-- Classification function matching the middleware's branch structure. -/
def classifyExc : Exc → Classification
  | Exc.runtimeError m =>
    if containsSubstr "MongoDB" m then Classification.serviceUnavailable
    else Classification.passThrough
  | _ => Classification.internalError

/-- True when the middleware outcome is a response handed to the caller
(rather than a re-raised exception). -/
def isResponse (outcome : Except Exc Response × List String) : Bool :=
  match outcome.1 with
  | Except.ok _ => true
  | Except.error _ => false

/-- Modelled from the spec: the standard input-validation error path (the
framework's installed `RequestValidationError` handler, which runs inside
`call_next`, below the fault-isolation middleware; the handler class is
imported at src/app/main.py line 4 but the framework code is not under src/).
A validation failure is converted into the structured 422 validation
response. -/
def validation_error_response (m : String) : Response :=
  { status := 422, body := [("detail", m)] }

/-- Inner request pipeline as seen by the fault-isolation middleware: the
framework converts a validation failure to the 422 response before the
middleware observes the outcome; every other outcome passes through. -/
def inner_pipeline (handlerOutcome : Except Exc Response) : Except Exc Response :=
  match handlerOutcome with
  | Except.error (Exc.validationError m) => Except.ok (validation_error_response m)
  | r => r

/-- Full request path: the handler chain's outcome flows through the inner
framework pipeline and then through `db_exception_handler`. -/
def serve_request (tb : String) (handlerOutcome : Except Exc Response) :
    Except Exc Response × List String :=
  db_exception_handler tb (inner_pipeline handlerOutcome)

/-- Observable events of one middleware pass, for the ordering claims. -/
inductive Event where
  | callHandler
  | classifyOutcome
deriving DecidableEq, Repr

/-- The single `await call_next(request)` of src/app/main.py line 34,
instrumented: it records one `callHandler` event per invocation. -/
def callNextStep (handler : Unit → Except Exc Response) :
    Except Exc Response × List Event :=
  (handler (), [Event.callHandler])

/-- The except-clause dispatch (classification) of the middleware,
instrumented: it records one `classifyOutcome` event per run. -/
def classifyStep (tb : String) (outcome : Except Exc Response) :
    (Except Exc Response × List String) × List Event :=
  (db_exception_handler tb outcome, [Event.classifyOutcome])

/-- One full middleware pass over a request: invoke the wrapped handler
chain, then classify its outcome, accumulating the event trace in program
order.  Mirrors the `try`/`except` control flow of src/app/main.py
lines 32–49, which contains exactly one call to `call_next`. -/
def runMiddleware (handler : Unit → Except Exc Response) (tb : String) :
    (Except Exc Response × List String) × List Event :=
  let s1 := callNextStep handler
  let s2 := classifyStep tb s1.1
  (s2.1, s1.2 ++ s2.2)

/-- ServiceLifecycleState of spec §3. -/
inductive LifecycleState where
  | uninitialized
  | connecting
  | ready
  | degraded
  | shuttingDown
  | closed
deriving DecidableEq, Repr

/-- Modelled from the spec: `connect_to_mongo` (in `app.db.database`, which is
not under src/) attempts the connection exactly once, reaching state READY on
success; on failure the error propagates and READY is never reached.
The single attempt's outcome is the argument. -/
def connect_to_mongo (attempt : Except String Unit) : Except String LifecycleState :=
  match attempt with
  | Except.ok _ => Except.ok LifecycleState.ready
  | Except.error e => Except.error e

/-- Embedding of `startup_db`, src/app/main.py lines 79–85: await
`connect_to_mongo`; on failure log at critical level and re-raise.  Returns
the outcome and the log lines emitted. -/
def startup_db (attempt : Except String Unit) :
    Except String LifecycleState × List String :=
  match connect_to_mongo attempt with
  | Except.ok st => (Except.ok st, [])
  | Except.error e => (Except.error e, ["Failed to initialize database: " ++ e])

/-- Modelled from the spec: `close_mongo_connection` (in `app.db.database`,
not under src/) is the Resource Lifecycle Manager's release: idempotent (a
no-op when already CLOSED), never throws, logs and swallows any underlying
close failure, and always ends in CLOSED.  `closeFails` forces an underlying
close failure. -/
def close_mongo_connection (st : LifecycleState) (closeFails : Bool) :
    LifecycleState × List String :=
  match st with
  | LifecycleState.closed => (LifecycleState.closed, [])
  | _ =>
    if closeFails then
      (LifecycleState.closed, ["Error while closing MongoDB connection (swallowed)"])
    else
      (LifecycleState.closed, [])

/-- Embedding of `shutdown_db`, src/app/main.py lines 87–89: it awaits
`close_mongo_connection` and nothing else. -/
def shutdown_db (st : LifecycleState) (closeFails : Bool) :
    LifecycleState × List String :=
  close_mongo_connection st closeFails

/-- Application Shell process states of spec §4.4 (STOPPING/STOPPED not needed
by the claims about boot). -/
inductive ProcState where
  | starting
  | running
  | aborted
deriving DecidableEq, Repr

/-- Modelled from the spec: the host runtime runs the registered startup hook
(`app.add_event_handler("startup", startup_db)`, src/app/main.py line 61)
before accepting any request; a raising hook aborts startup and the process
never reaches RUNNING. -/
def bootProcess (attempt : Except String Unit) : ProcState × List String :=
  match startup_db attempt with
  | (Except.ok _, lg) => (ProcState.running, lg)
  | (Except.error _, lg) => (ProcState.aborted, lg)

/-- Modelled from the spec: requests are dispatched to route-group handlers
only while the process is RUNNING. -/
def dispatchAllowed : ProcState → Bool
  | ProcState.running => true
  | _ => false

/-- A registered route: its path and an opaque tag identifying its handler. -/
structure Route where
  path : String
  tag : String
deriving DecidableEq, Repr

/-- Embedding of `APIRouter.include_router(child, prefix=pfx)`: the child's
routes are appended to the parent, each path prepended with the given path
fragment (empty when the call passes no prefix argument). -/
def include_router (parent : List Route) (child : List Route) (pfx : String) :
    List Route :=
  parent ++ child.map (fun r => { path := pfx ++ r.path, tag := r.tag })

/-- Embedding of src/app/api/v1/__init__.py: a fresh router into which the
four route groups are included, in order, each with no extra path fragment.
The groups themselves live outside src/ and are opaque parameters. -/
def api_v1_router (auth artwork blockchain admin : List Route) : List Route :=
  include_router
    (include_router
      (include_router
        (include_router [] auth "")
        artwork "")
      blockchain "")
    admin ""

/-- The root liveness route of src/app/main.py lines 68–70. -/
def rootRoute : Route := { path := "/", tag := "root" }

/-- The favicon route of src/app/main.py lines 72–77. -/
def faviconRoute : Route := { path := "/favicon.ico", tag := "favicon" }

/-- Embedding of the route table built once by `register_routes_and_events`
(src/app/main.py lines 56–77): the composed v1 router is included under the
fixed "/api/v1" path fragment, then the two basic routes are added. -/
def app_routes (auth artwork blockchain admin : List Route) : List Route :=
  include_router [] (api_v1_router auth artwork blockchain admin) "/api/v1"
    ++ [rootRoute, faviconRoute]

/-! Helper lemmas about the substring test. -/

theorem leadsWith_append (l t : List Char) : leadsWith l (l ++ t) = true := by
  induction l with
  | nil => rfl
  | cons a as ih => simp [leadsWith, ih]

theorem containsSub_nil_needle (h : List Char) : containsSub [] h = true := by
  cases h with
  | nil => rfl
  | cons b rest => simp [containsSub, leadsWith]

theorem containsSub_middle (p l t : List Char) : containsSub l (p ++ l ++ t) = true := by
  induction p with
  | nil =>
    cases l with
    | nil => simpa using containsSub_nil_needle t
    | cons a as =>
      simp only [List.nil_append, List.cons_append, containsSub, Bool.or_eq_true]
      exact Or.inl (leadsWith_append (a :: as) t)
  | cons c p2 ih =>
    simp only [List.cons_append, containsSub, Bool.or_eq_true]
    exact Or.inr (by simpa [List.append_assoc] using ih)

theorem containsSubstr_middle (pre s suf : String) :
    containsSubstr s (pre ++ s ++ suf) = true := by
  unfold containsSubstr
  rw [String.data_append, String.data_append]
  exact containsSub_middle pre.data s.data suf.data

theorem containsSubstr_right (pre s : String) : containsSubstr s (pre ++ s) = true := by
  unfold containsSubstr
  rw [String.data_append]
  simpa using containsSub_middle pre.data s.data []

/-- C1: a failure classified as a resource failure — a RuntimeError whose
message contains "MongoDB" — yields HTTP 503 with body exactly the single
field ("detail", "Service unavailable - database error"), independent of the
original failure's content; the underlying detail goes to the log only. -/
theorem resource_failure_yields_fixed_503 (tb m : String)
    (h : containsSubstr "MongoDB" m = true) :
    db_exception_handler tb (Except.error (Exc.runtimeError m)) =
      (Except.ok { status := 503,
                   body := [("detail", "Service unavailable - database error")] },
       ["Database error: " ++ m]) := by
  simp [db_exception_handler, h]

/-- Witness for C1 at a concrete resource failure. -/
theorem resource_failure_yields_fixed_503_witness :
    containsSubstr "MongoDB" "MongoDB connection refused" = true ∧
    db_exception_handler "tb0" (Except.error (Exc.runtimeError "MongoDB connection refused")) =
      (Except.ok { status := 503,
                   body := [("detail", "Service unavailable - database error")] },
       ["Database error: " ++ "MongoDB connection refused"]) :=
  ⟨by decide,
   resource_failure_yields_fixed_503 "tb0" "MongoDB connection refused" (by decide)⟩

/-- C10: resource-failure classification requires both conditions — the
exception is a RuntimeError and its message contains "MongoDB".  Any other
exception type maps to the fixed 500 response regardless of message, and a
RuntimeError whose message lacks the substring is re-raised, mapped to no
response. -/
theorem classification_requires_type_and_substring (tb m : String) :
    (containsSubstr "MongoDB" m = true →
      db_exception_handler tb (Except.error (Exc.runtimeError m)) =
        (Except.ok { status := 503,
                     body := [("detail", "Service unavailable - database error")] },
         ["Database error: " ++ m])) ∧
    (containsSubstr "MongoDB" m = false →
      db_exception_handler tb (Except.error (Exc.runtimeError m)) =
        (Except.error (Exc.runtimeError m), [])) ∧
    (∀ excType m2,
      db_exception_handler tb (Except.error (Exc.otherError excType m2)) =
        (Except.ok { status := 500, body := [("detail", "Internal server error")] },
         ["Unhandled exception: " ++ m2 ++ "\n" ++ tb])) ∧
    (∀ m2,
      db_exception_handler tb (Except.error (Exc.validationError m2)) =
        (Except.ok { status := 500, body := [("detail", "Internal server error")] },
         ["Unhandled exception: " ++ m2 ++ "\n" ++ tb])) := by
  refine ⟨fun h => by simp [db_exception_handler, h],
          fun h => by simp [db_exception_handler, h],
          fun excType m2 => by simp [db_exception_handler, excMsg],
          fun m2 => by simp [db_exception_handler, excMsg]⟩

/-- Witness for C10 at concrete inputs of all three kinds. -/
theorem classification_requires_type_and_substring_witness :
    db_exception_handler "tb1" (Except.error (Exc.runtimeError "MongoDB timeout")) =
      (Except.ok { status := 503,
                   body := [("detail", "Service unavailable - database error")] },
       ["Database error: " ++ "MongoDB timeout"]) ∧
    db_exception_handler "tb1" (Except.error (Exc.runtimeError "oops")) =
      (Except.error (Exc.runtimeError "oops"), []) ∧
    db_exception_handler "tb1" (Except.error (Exc.otherError "ValueError" "bad value")) =
      (Except.ok { status := 500, body := [("detail", "Internal server error")] },
       ["Unhandled exception: " ++ "bad value" ++ "\n" ++ "tb1"]) :=
  ⟨(classification_requires_type_and_substring "tb1" "MongoDB timeout").1 (by decide),
   (classification_requires_type_and_substring "tb1" "oops").2.1 (by decide),
   (classification_requires_type_and_substring "tb1" "oops").2.2.1 "ValueError" "bad value"⟩

/-- C2 counterexample: a RuntimeError whose message lacks "MongoDB"
propagates past the fault-isolation middleware (the bare raise on
src/app/main.py line 43, which the sibling except-Exception clause does not
catch) instead of being translated into a response — refuting the claim that
no failure raised by a handler propagates uncaught past the middleware. -/
theorem runtime_error_escapes_middleware :
    db_exception_handler "tb2" (Except.error (Exc.runtimeError "boom")) =
      (Except.error (Exc.runtimeError "boom"), []) := rfl

/-- C2 amended: every failure escaping the handler chain, except a
RuntimeError whose message lacks "MongoDB", is caught by the middleware and
translated into a response sent to the caller. -/
theorem nonpassthrough_failures_get_response (tb : String) (e : Exc)
    (h : ∀ m, e = Exc.runtimeError m → containsSubstr "MongoDB" m = true) :
    isResponse (db_exception_handler tb (Except.error e)) = true := by
  cases e with
  | runtimeError m =>
    have hm := h m rfl
    simp [db_exception_handler, hm, isResponse]
  | validationError _ => simp [db_exception_handler, isResponse]
  | otherError t m => simp [db_exception_handler, isResponse]

/-- Witness for the amended C2 at a concrete non-RuntimeError failure. -/
theorem nonpassthrough_failures_get_response_witness :
    isResponse (db_exception_handler "tb3"
      (Except.error (Exc.otherError "TypeError" "x"))) = true :=
  nonpassthrough_failures_get_response "tb3" (Exc.otherError "TypeError" "x")
    (fun _ hm => Exc.noConfusion hm)

/-- C3 counterexample: RuntimeError "connection pool exhausted" is neither a
resource failure (no "MongoDB" in the message) nor a validation failure, yet
the middleware neither returns the 500 response nor logs anything — it
re-raises the exception. -/
theorem unclassified_runtime_error_not_500 :
    db_exception_handler "tb4"
        (Except.error (Exc.runtimeError "connection pool exhausted")) =
      (Except.error (Exc.runtimeError "connection pool exhausted"), []) := rfl

/-- C3 amended: a failure that is neither a RuntimeError nor a validation
failure gets HTTP 500 with the fixed generic body and exactly one log line,
which contains the original message and the traceback; a RuntimeError whose
message lacks "MongoDB" is instead re-raised unlogged. -/
theorem unclassified_failure_500_logged_once (tb excType m : String) :
    db_exception_handler tb (Except.error (Exc.otherError excType m)) =
      (Except.ok { status := 500, body := [("detail", "Internal server error")] },
       ["Unhandled exception: " ++ m ++ "\n" ++ tb]) ∧
    ["Unhandled exception: " ++ m ++ "\n" ++ tb].length = 1 ∧
    containsSubstr m ("Unhandled exception: " ++ m ++ "\n" ++ tb) = true ∧
    containsSubstr tb ("Unhandled exception: " ++ m ++ "\n" ++ tb) = true := by
  refine ⟨by simp [db_exception_handler, excMsg], rfl, ?_, ?_⟩
  · rw [String.append_assoc ("Unhandled exception: " ++ m) "\n" tb,
        String.append_assoc "Unhandled exception: " m ("\n" ++ tb)]
    have := containsSubstr_middle "Unhandled exception: " m ("\n" ++ tb)
    rwa [String.append_assoc "Unhandled exception: " m ("\n" ++ tb)] at this
  · exact containsSubstr_right ("Unhandled exception: " ++ m ++ "\n") tb

/-- C4: a validation failure follows the standard validation path — the full
request path returns the structured 422 validation response untouched, with
no middleware log line and no conversion to the 503 or 500 fault shapes. -/
theorem validation_failure_passes_through (tb m : String) :
    serve_request tb (Except.error (Exc.validationError m)) =
      (Except.ok (validation_error_response m), []) ∧
    (validation_error_response m).status = 422 ∧
    (validation_error_response m).status ≠ 503 ∧
    (validation_error_response m).status ≠ 500 := by
  exact ⟨rfl, rfl, by simp [validation_error_response], by simp [validation_error_response]⟩

/-- Shape lemma: whenever the middleware hands a response to the caller for an
intercepted failure, the failure's classification determines the response,
which is one of the two fixed shapes. -/
theorem handler_ok_shape (tb : String) (e : Exc) (r : Response)
    (h : (db_exception_handler tb (Except.error e)).1 = Except.ok r) :
    (classifyExc e = Classification.serviceUnavailable ∧
      r = { status := 503,
            body := [("detail", "Service unavailable - database error")] }) ∨
    (classifyExc e = Classification.internalError ∧
      r = { status := 500, body := [("detail", "Internal server error")] }) := by
  cases e with
  | runtimeError m =>
    by_cases hm : containsSubstr "MongoDB" m = true
    · left
      refine ⟨by simp [classifyExc, hm], ?_⟩
      simp [db_exception_handler, hm] at h
      exact h.symm
    · exfalso
      simp [db_exception_handler, hm] at h
  | validationError m =>
    right
    refine ⟨rfl, ?_⟩
    simp [db_exception_handler, excMsg] at h
    exact h.symm
  | otherError t m =>
    right
    refine ⟨rfl, ?_⟩
    simp [db_exception_handler, excMsg] at h
    exact h.symm

/-- C7: any two intercepted failures of the same classification that the
middleware answers produce identical response bodies, and every fault
response body is one of the two fixed single-field shapes — so no stack
trace, resource identifier, path, or fragment of the original message can
appear in a response body. -/
theorem same_classification_same_body (tb1 tb2 : String) (e1 e2 : Exc)
    (r1 r2 : Response)
    (hc : classifyExc e1 = classifyExc e2)
    (h1 : (db_exception_handler tb1 (Except.error e1)).1 = Except.ok r1)
    (h2 : (db_exception_handler tb2 (Except.error e2)).1 = Except.ok r2) :
    r1.body = r2.body ∧
    (r1.body = [("detail", "Service unavailable - database error")] ∨
     r1.body = [("detail", "Internal server error")]) := by
  rcases handler_ok_shape tb1 e1 r1 h1 with ⟨c1, rfl⟩ | ⟨c1, rfl⟩ <;>
    rcases handler_ok_shape tb2 e2 r2 h2 with ⟨c2, rfl⟩ | ⟨c2, rfl⟩ <;>
    simp_all

/-- Witness for C7: two distinct unclassified failures both map to the fixed
500 body. -/
theorem same_classification_same_body_witness :
    ({ status := 500, body := [("detail", "Internal server error")] } : Response).body =
      ({ status := 500, body := [("detail", "Internal server error")] } : Response).body ∧
    (({ status := 500, body := [("detail", "Internal server error")] } : Response).body =
        [("detail", "Service unavailable - database error")] ∨
     ({ status := 500, body := [("detail", "Internal server error")] } : Response).body =
        [("detail", "Internal server error")]) :=
  same_classification_same_body "t1" "t2"
    (Exc.otherError "ValueError" "a") (Exc.otherError "KeyError" "b")
    { status := 500, body := [("detail", "Internal server error")] }
    { status := 500, body := [("detail", "Internal server error")] }
    rfl rfl rfl

/-- C8: one middleware pass invokes the wrapped handler chain exactly once
and runs classification exactly once, with the classification event strictly
after the invocation event; the outcome is the classification of that single
invocation's result — no re-invocation, no retry. -/
theorem handler_called_once_classified_once
    (handler : Unit → Except Exc Response) (tb : String) :
    (runMiddleware handler tb).2 = [Event.callHandler, Event.classifyOutcome] ∧
    List.count Event.callHandler (runMiddleware handler tb).2 = 1 ∧
    List.count Event.classifyOutcome (runMiddleware handler tb).2 = 1 ∧
    (runMiddleware handler tb).1 = db_exception_handler tb (handler ()) := by
  exact ⟨rfl, rfl, rfl, rfl⟩

/-- C5: shutdown always completes in state CLOSED without raising, whatever
state it starts from and even if the underlying close fails; a second release
from CLOSED is a pure no-op — state stays CLOSED and nothing is logged. -/
theorem shutdown_idempotent_closed (st : LifecycleState) (f1 f2 : Bool) :
    (shutdown_db st f1).1 = LifecycleState.closed ∧
    shutdown_db (shutdown_db st f1).1 f2 = (LifecycleState.closed, []) := by
  cases st <;> cases f1 <;> simp [shutdown_db, close_mongo_connection]

/-- C6: when resource acquisition fails at boot, the startup hook logs the
failure at critical level and re-raises it, the process ends aborted rather
than RUNNING, and request dispatch is not allowed, so no route-group handler
can run. -/
theorem startup_failure_aborts_boot (e : String) :
    (startup_db (Except.error e)).1 = Except.error e ∧
    (startup_db (Except.error e)).2 = ["Failed to initialize database: " ++ e] ∧
    bootProcess (Except.error e) =
      (ProcState.aborted, ["Failed to initialize database: " ++ e]) ∧
    (bootProcess (Except.error e)).1 ≠ ProcState.running ∧
    dispatchAllowed (bootProcess (Except.error e)).1 = false := by
  refine ⟨rfl, rfl, rfl, ?_, rfl⟩
  intro hcontra
  simp [bootProcess, startup_db, connect_to_mongo] at hcontra

/-- Auxiliary for C9: including a router with no path fragment keeps every
route unchanged. -/
theorem map_empty_pfx (l : List Route) :
    l.map (fun r => ({ path := "" ++ r.path, tag := r.tag } : Route)) = l := by
  induction l with
  | nil => rfl
  | cons a as ih =>
    cases a
    simp [ih, String.empty_append]

/-- C9: the composed route table equals the four route groups, in order, each
appearing exactly once with its own relative paths under the fixed "/api/v1"
path fragment, followed by the two basic routes. -/
theorem routes_composed_once_under_v1 (auth artwork blockchain admin : List Route) :
    app_routes auth artwork blockchain admin =
      (auth ++ artwork ++ blockchain ++ admin).map
        (fun r => { path := "/api/v1" ++ r.path, tag := r.tag }) ++
      [rootRoute, faviconRoute] := by
  simp [app_routes, api_v1_router, include_router, map_empty_pfx,
        List.map_append, List.append_assoc]

end DrmBackend
